import Mathlib

/-!
Shallow embedding of the pose-variation image client (src/index.tsx).

The program is a single-page browser client with three responsibilities:
  * `handleFile`        — the upload handler (index.tsx lines 64-83);
  * `combinedPrompt` / `textPartText` — the prompt composer (lines 97, 160);
  * `generateClick` plus the deferred `imgOnload` / `imgOnerror` callbacks —
    the generation orchestrator (lines 141-218, 195-204).

DOM state touched by the program is modelled as a `PageState` record; observable
side effects (alerts, the single outbound service call, console logging, the
loading indicator and control enable/disable toggles) are recorded as an
ordered `List Event`.  The external generation service is modelled by a
`ServiceOutcome` input: either a list of response content parts or a thrown
error, matching the `try`/`catch` around the awaited call.
-/

namespace PoseApp

/-- The stored upload: base64 payload plus MIME string (index.tsx lines 25-28). -/
structure UploadedFile where
  base64 : String
  mimeType : String
deriving Repr, DecidableEq

/-- The `inlineData` field of a service-response content part. -/
structure InlineData where
  data : String
  mimeType : String
deriving Repr, DecidableEq

/-- One content part of the service response: optionally inline binary data,
optionally text (only `inlineData` is inspected by the code, line 108). -/
structure Part where
  inlineData : Option InlineData
  text : Option String
deriving Repr, DecidableEq

/-- A tile in the results grid.  A placeholder carries the identity of the DOM
node created for its attempt (`createPlaceholder`, lines 120-124), so that
`replaceChild` can be modelled as replacement of that exact node. -/
inductive Tile where
  | placeholder (pid : Nat)
  | imageResult (src filename alt : String)
  | errorTile (msg : String)
deriving Repr, DecidableEq

/-- Observable side effects of the handlers, in program order. -/
inductive Event where
  | alert (msg : String)
  | setControls (disabled : Bool)
  | showLoading
  | hideLoading
  | serviceCall (data mimeType text : String)
  | consoleError (msg errDetail : String)
deriving Repr, DecidableEq

/-- The DOM / page-session state the program reads and writes. -/
structure PageState where
  uploadedFile : Option UploadedFile
  previewSrc : String
  previewHidden : Bool
  uploadPlaceholderHidden : Bool
  generateDisabled : Bool
  selectsDisabled : Bool
  loadingHidden : Bool
  loadingMessage : String
  resultsGrid : List Tile
deriving Repr, DecidableEq

/-- What the awaited external service call does on a given attempt: resolve
with a list of content parts, or throw/reject with an error value. -/
inductive ServiceOutcome where
  | ok (parts : List Part)
  | err (e : String)
deriving Repr, DecidableEq

/-- The page before any interaction: no upload, generate disabled, loading
hidden, empty results grid. -/
def initialState : PageState :=
  { uploadedFile := none
    previewSrc := ""
    previewHidden := true
    uploadPlaceholderHidden := false
    generateDisabled := true
    selectsDisabled := false
    loadingHidden := true
    loadingMessage := ""
    resultsGrid := [] }

/-- JS `String.startsWith`, used at index.tsx line 65 (`file.type.startsWith('image/')`),
modelled as a character-list prefix test. -/
def strStartsWith (s pre : String) : Bool :=
  pre.data.isPrefixOf s.data

/-- Characters of the first split segment: everything before the next comma
(JS `split(',')` semantics). -/
def takeUntilComma : List Char → List Char
  | [] => []
  | c :: rest => if c = ',' then [] else c :: takeUntilComma rest

/-- Drop through the first comma, `none` when the list has no comma. -/
def dropThroughComma : List Char → Option (List Char)
  | [] => none
  | c :: rest => if c = ',' then some rest else dropThroughComma rest

/-- JS `s.split(',')[1]` (index.tsx line 72): the segment between the first and
second comma; `none` when the string contains no comma (JS `undefined`). -/
def splitCommaSecond (s : String) : Option String :=
  (dropThroughComma s.data).map (fun l => String.mk (takeUntilComma l))

/-- The upload handler `handleFile` (index.tsx lines 64-83).  The asynchronous
`FileReader` decode is folded into one step: `readerResult` is the data-URL
string `reader.result` delivered to `reader.onload`.  `readAsDataURL` always
produces `data:<mime>;base64,<payload>`, which contains a comma, so the
`getD ""` default for a comma-less reader result is never taken in practice. -/
def handleFile (st : PageState) (fileType readerResult : String) :
    PageState × List Event :=
  if !(strStartsWith fileType "image/") then
    (st, [Event.alert "Please select an image file."])
  else
    let base64String := (splitCommaSecond readerResult).getD ""
    ({ st with
        uploadedFile := some { base64 := base64String, mimeType := fileType }
        previewSrc := "data:" ++ fileType ++ ";base64," ++ base64String
        previewHidden := false
        uploadPlaceholderHidden := true
        generateDisabled := false },
     [])

/-- The composed prompt (index.tsx line 160). -/
def combinedPrompt (pose expression style cameraAngle : String) : String :=
  pose ++ ", with " ++ expression ++ ", " ++ style ++ ", captured " ++ cameraAngle

/-- The text content part sent to the service (index.tsx line 97). -/
def textPartText (prompt : String) : String :=
  "From the image provided, change the subject to be " ++ prompt ++ ". It is critical to keep the subject's face and the original background unchanged. Only alter the body's pose and expression."

/-- The scan of `generateImage` over response parts (index.tsx lines 107-111):
the data URI of the first part carrying `inlineData`, else `none` (line 112). -/
def scanParts : List Part → Option String
  | [] => none
  | p :: ps =>
    match p.inlineData with
    | some d => some ("data:" ++ d.mimeType ++ ";base64," ++ d.data)
    | none => scanParts ps

/-- The first content part carrying inline data, as the spec speaks of it
(the "first inline image part" of the response). -/
def firstInlineData : List Part → Option InlineData
  | [] => none
  | p :: ps =>
    match p.inlineData with
    | some d => some d
    | none => firstInlineData ps

/-- The data-URI re-encoding of an inline payload (index.tsx line 109). -/
def dataUri (d : InlineData) : String :=
  "data:" ++ d.mimeType ++ ";base64," ++ d.data

/-- `combinedPrompt.replace(/[^a-z0-9]/gi, '_')` (index.tsx line 175): every
character outside ASCII letters and digits becomes an underscore. -/
def replaceNonAlnum (s : String) : String :=
  String.mk (s.data.map (fun c => if c.isAlphanum then c else '_'))

/-- `cleanPrompt` (index.tsx line 175): replacement then `.toLowerCase()`.
After the replacement only ASCII alphanumerics and underscores remain, so the
per-character ASCII `Char.toLower` models JS `toLowerCase` exactly here. -/
def cleanPrompt (s : String) : String :=
  String.mk ((replaceNonAlnum s).data.map Char.toLower)

/-- The download filename (index.tsx line 176). -/
def downloadFilename (prompt : String) : String :=
  "generated_" ++ cleanPrompt prompt ++ ".png"

/-- The spec's description of the sanitization, for comparison with the code's
`cleanPrompt`: every non-alphanumeric character replaced by `_` and all
letters lower-cased. -/
def sanitizeSpec (s : String) : String :=
  String.mk (s.data.map (fun c => if c.isAlphanum then c.toLower else '_'))

/-- `setControlsDisabled` (index.tsx lines 133-139): disables/enables the
generate button and the four selects. -/
def setControlsDisabled (st : PageState) (d : Bool) : PageState :=
  { st with generateDisabled := d, selectsDisabled := d }

/-- `resultsGrid.replaceChild(newTile, placeholder)` guarded by
`resultsGrid.contains(placeholder)` (index.tsx lines 196-213): replace the
attempt's placeholder node when it is still in the grid, otherwise no change. -/
def replaceIfPresent (grid : List Tile) (pid : Nat) (newTile : Tile) : List Tile :=
  if Tile.placeholder pid ∈ grid then
    grid.map (fun t => if t = Tile.placeholder pid then newTile else t)
  else grid

/-- The success-path image element with its deferred load callbacks: the
attempt's placeholder id and the fully built result container
(index.tsx lines 165-204). -/
structure PendingImage where
  pid : Nat
  container : Tile
deriving Repr, DecidableEq

/-- `img.onload` (index.tsx lines 195-199): swap the container in for the
placeholder, but only if the placeholder is still in the grid. -/
def imgOnload (st : PageState) (p : PendingImage) : PageState :=
  { st with resultsGrid := replaceIfPresent st.resultsGrid p.pid p.container }

/-- `img.onerror` (index.tsx lines 200-204): swap in the load-failure error
tile, but only if the placeholder is still in the grid. -/
def imgOnerror (st : PageState) (p : PendingImage) : PageState :=
  { st with
      resultsGrid :=
        replaceIfPresent st.resultsGrid p.pid (Tile.errorTile "Failed to load image.") }

/-- The generate-button click handler (index.tsx lines 141-218), as a function
of the page state, the four select values, what the awaited service call does,
and the fresh placeholder node's identity.  Returns the state when the handler
returns, the ordered effect trace, and — on the success path — the image
element whose `onload`/`onerror` callback will fire later (`imgOnload` /
`imgOnerror`). -/
def generateClick (st : PageState) (pose expression style cameraAngle : String)
    (svc : ServiceOutcome) (pid : Nat) :
    PageState × List Event × Option PendingImage :=
  match st.uploadedFile with
  | none => (st, [Event.alert "Please upload an image first."], none)
  | some uf =>
    let st1 : PageState :=
      { setControlsDisabled st true with
          loadingHidden := false
          loadingMessage := "Generating image..."
          resultsGrid := [Tile.placeholder pid] }
    let prompt := combinedPrompt pose expression style cameraAngle
    let callEv := Event.serviceCall uf.base64 uf.mimeType (textPartText prompt)
    match svc with
    | ServiceOutcome.ok parts =>
      match scanParts parts with
      | some resultSrc =>
        let container := Tile.imageResult resultSrc (downloadFilename prompt)
          ("Generated image: " ++ prompt)
        ({ setControlsDisabled st1 false with loadingHidden := true },
         [Event.setControls true, Event.showLoading, callEv,
          Event.hideLoading, Event.setControls false],
         some { pid := pid, container := container })
      | none =>
        ({ setControlsDisabled
             { st1 with
                 resultsGrid :=
                   replaceIfPresent st1.resultsGrid pid
                     (Tile.errorTile "Generation failed.") }
             false with loadingHidden := true },
         [Event.setControls true, Event.showLoading, callEv,
          Event.hideLoading, Event.setControls false],
         none)
    | ServiceOutcome.err e =>
      ({ setControlsDisabled
           { st1 with
               resultsGrid :=
                 replaceIfPresent st1.resultsGrid pid
                   (Tile.errorTile "API error.") }
           false with loadingHidden := true },
       [Event.setControls true, Event.showLoading, callEv,
        Event.consoleError ("API Error for prompt \"" ++ prompt ++ "\":") e,
        Event.hideLoading, Event.setControls false],
       none)

/-- Recognizer for the outbound service-call event. -/
def Event.isServiceCall : Event → Bool
  | Event.serviceCall _ _ _ => true
  | _ => false

/-- Recognizer for the hide-loading-indicator event (index.tsx line 216). -/
def Event.isHideLoading : Event → Bool
  | Event.hideLoading => true
  | _ => false

/-- Recognizer for the re-enable-controls event (index.tsx line 217). -/
def Event.isEnableControls : Event → Bool
  | Event.setControls false => true
  | _ => false

/-- Number of occurrences of `pat` as a contiguous sublist of `s`, one per
starting position. -/
def countOccs (pat : List Char) : List Char → Nat
  | [] => if pat.isPrefixOf ([] : List Char) then 1 else 0
  | c :: rest =>
    (if pat.isPrefixOf (c :: rest) then 1 else 0) + countOccs pat rest

end PoseApp

namespace PoseApp

/-! ### Helper lemmas shared by the claim theorems -/

/-- The scan in `generateImage` returns exactly the data URI of the first
part carrying inline data. -/
theorem scanParts_eq_firstInline (parts : List Part) :
    scanParts parts = (firstInlineData parts).map dataUri := by
  induction parts with
  | nil => rfl
  | cons p ps ih =>
    cases hp : p.inlineData with
    | none => simp [scanParts, firstInlineData, hp, ih]
    | some d => simp [scanParts, firstInlineData, hp, dataUri]

/-- The code's `cleanPrompt` (replace non-alphanumerics, then lower-case) agrees
with the spec's description (replace non-alphanumerics with `_`, lower-case the
letters). -/
theorem cleanPrompt_eq_sanitizeSpec (s : String) : cleanPrompt s = sanitizeSpec s := by
  show String.mk ((s.data.map fun c => if c.isAlphanum then c else '_').map Char.toLower)
      = String.mk (s.data.map fun c => if c.isAlphanum then c.toLower else '_')
  rw [List.map_map]
  congr 1
  refine List.map_congr_left fun c _ => ?_
  by_cases h : c.isAlphanum
  · simp [h, Function.comp]
  · simp [h, Function.comp]

/-- A pattern that occurs as a contiguous sublist is counted at least once. -/
theorem one_le_countOccs_append (pat pre post : List Char) :
    1 ≤ countOccs pat (pre ++ (pat ++ post)) := by
  induction pre with
  | nil =>
    rw [List.nil_append]
    cases h : pat ++ post with
    | nil =>
      have hpat : pat = [] := (List.append_eq_nil.mp h).1
      simp [h, countOccs, hpat]
    | cons c rest =>
      rw [countOccs]
      have hpre : pat.isPrefixOf (c :: rest) = true := by
        rw [← h, List.isPrefixOf_iff_prefix]
        exact List.prefix_append pat post
      simp [hpre]
  | cons c cs ih =>
    rw [List.cons_append, countOccs]
    exact le_trans ih (Nat.le_add_left _ _)

/-- Occurrence count is positive whenever the scanned list decomposes around
the pattern. -/
theorem one_le_countOccs_of_eq (pat s pre post : List Char)
    (h : s = pre ++ (pat ++ post)) : 1 ≤ countOccs pat s := by
  rw [h]; exact one_le_countOccs_append pat pre post

end PoseApp

namespace PoseApp

set_option maxRecDepth 8000

/-- C1 (counterexample): with all four selections equal to `"e"`, the
selection value `"e"` occurs 24 times — not exactly once — in the Prompt
Composer's output (the text part built from the combined prompt), refuting
the claim's "contains each selection's literal value exactly once" at this
concrete input. -/
theorem C1_counterexample :
    ¬ (countOccs "e".data (textPartText (combinedPrompt "e" "e" "e" "e")).data = 1) := by
  decide

/-- C1 (amended): for every choice of the four selection values, the Prompt
Composer's output contains each selection's literal value at least once, with
the four values comma-joined in the order pose, expression, style,
camera-angle, and that combined clause embedded verbatim in the larger
instruction template that states the two constraints (preserve face, preserve
background).  ("Exactly once" fails: a value can also occur inside the fixed
template text or inside another selection, see the counterexample.) -/
theorem C1_amended (pose expression style cameraAngle : String) :
    textPartText (combinedPrompt pose expression style cameraAngle) =
      "From the image provided, change the subject to be " ++
        (pose ++ ", with " ++ expression ++ ", " ++ style ++ ", captured " ++ cameraAngle) ++
        ". It is critical to keep the subject's face and the original background unchanged. Only alter the body's pose and expression." ∧
    1 ≤ countOccs pose.data
        (textPartText (combinedPrompt pose expression style cameraAngle)).data ∧
    1 ≤ countOccs expression.data
        (textPartText (combinedPrompt pose expression style cameraAngle)).data ∧
    1 ≤ countOccs style.data
        (textPartText (combinedPrompt pose expression style cameraAngle)).data ∧
    1 ≤ countOccs cameraAngle.data
        (textPartText (combinedPrompt pose expression style cameraAngle)).data := by
  refine ⟨rfl, ?_, ?_, ?_, ?_⟩
  · exact one_le_countOccs_of_eq _ _
      ("From the image provided, change the subject to be ").data
      ((", with " ++ expression ++ ", " ++ style ++ ", captured " ++ cameraAngle ++
        ". It is critical to keep the subject's face and the original background unchanged. Only alter the body's pose and expression.").data)
      (by simp [textPartText, combinedPrompt, String.data_append, List.append_assoc])
  · exact one_le_countOccs_of_eq _ _
      (("From the image provided, change the subject to be " ++ pose ++ ", with ").data)
      ((", " ++ style ++ ", captured " ++ cameraAngle ++
        ". It is critical to keep the subject's face and the original background unchanged. Only alter the body's pose and expression.").data)
      (by simp [textPartText, combinedPrompt, String.data_append, List.append_assoc])
  · exact one_le_countOccs_of_eq _ _
      (("From the image provided, change the subject to be " ++ pose ++ ", with " ++
        expression ++ ", ").data)
      ((", captured " ++ cameraAngle ++
        ". It is critical to keep the subject's face and the original background unchanged. Only alter the body's pose and expression.").data)
      (by simp [textPartText, combinedPrompt, String.data_append, List.append_assoc])
  · exact one_le_countOccs_of_eq _ _
      (("From the image provided, change the subject to be " ++ pose ++ ", with " ++
        expression ++ ", " ++ style ++ ", captured ").data)
      (". It is critical to keep the subject's face and the original background unchanged. Only alter the body's pose and expression.".data)
      (by simp [textPartText, combinedPrompt, String.data_append, List.append_assoc])

end PoseApp

namespace PoseApp

/-- A page state after a successful upload, used by the witnesses. -/
def sampleUploadedState : PageState :=
  { initialState with
      uploadedFile := some { base64 := "IMG", mimeType := "image/jpeg" }
      generateDisabled := false }

/-- A response part carrying the inline payload used in C2. -/
def samplePngPart : Part :=
  { inlineData := some { data := "AAAA", mimeType := "image/png" }, text := none }

/-- C2: for every service response whose first inline image part is
`{data := "AAAA", mimeType := "image/png"}`, the success tile built by the
click handler has image source `data:image/png;base64,AAAA` and download
filename `generated_` ++ the composed prompt sanitized as the spec describes
(every non-alphanumeric character replaced by `_`, letters lower-cased)
++ `.png`. -/
theorem C2_success_tile (st : PageState) (uf : UploadedFile)
    (pose expression style cameraAngle : String) (parts : List Part) (pid : Nat)
    (huf : st.uploadedFile = some uf)
    (hfirst : firstInlineData parts = some { data := "AAAA", mimeType := "image/png" }) :
    (generateClick st pose expression style cameraAngle
        (ServiceOutcome.ok parts) pid).2.2 =
      some { pid := pid
             container := Tile.imageResult "data:image/png;base64,AAAA"
               ("generated_" ++
                 sanitizeSpec (combinedPrompt pose expression style cameraAngle) ++ ".png")
               ("Generated image: " ++ combinedPrompt pose expression style cameraAngle) } := by
  have hscan : scanParts parts = some "data:image/png;base64,AAAA" := by
    rw [scanParts_eq_firstInline, hfirst]; rfl
  simp [generateClick, huf, hscan, downloadFilename, cleanPrompt_eq_sanitizeSpec]

/-- Witness for C2 at a concrete state, selections and response. -/
theorem C2_success_tile_witness :
    (generateClick sampleUploadedState "a" "b" "c" "d"
        (ServiceOutcome.ok [samplePngPart]) 0).2.2 =
      some { pid := 0
             container := Tile.imageResult "data:image/png;base64,AAAA"
               ("generated_" ++ sanitizeSpec (combinedPrompt "a" "b" "c" "d") ++ ".png")
               ("Generated image: " ++ combinedPrompt "a" "b" "c" "d") } :=
  C2_success_tile sampleUploadedState { base64 := "IMG", mimeType := "image/jpeg" }
    "a" "b" "c" "d" [samplePngPart] 0 rfl rfl

/-- C3: when no uploaded image is present, the click handler alerts, performs
no service call, changes no page state, and leaves the results grid
unmodified. -/
theorem C3_no_upload_rejects (st : PageState)
    (pose expression style cameraAngle : String) (svc : ServiceOutcome) (pid : Nat)
    (h : st.uploadedFile = none) :
    generateClick st pose expression style cameraAngle svc pid =
      (st, [Event.alert "Please upload an image first."], none) ∧
    (generateClick st pose expression style cameraAngle svc pid).2.1.countP
        Event.isServiceCall = 0 ∧
    (generateClick st pose expression style cameraAngle svc pid).1.resultsGrid =
      st.resultsGrid := by
  refine ⟨?_, ?_, ?_⟩ <;>
    simp [generateClick, h, List.countP_cons, List.countP_nil, Event.isServiceCall]

/-- Witness for C3 at the initial page state. -/
theorem C3_no_upload_rejects_witness :
    generateClick initialState "a" "b" "c" "d" (ServiceOutcome.err "boom") 0 =
      (initialState, [Event.alert "Please upload an image first."], none) ∧
    (generateClick initialState "a" "b" "c" "d" (ServiceOutcome.err "boom") 0).2.1.countP
        Event.isServiceCall = 0 ∧
    (generateClick initialState "a" "b" "c" "d" (ServiceOutcome.err "boom") 0).1.resultsGrid =
      initialState.resultsGrid :=
  C3_no_upload_rejects initialState "a" "b" "c" "d" (ServiceOutcome.err "boom") 0 rfl

/-- C4: for every file whose MIME type does not start with `image/`, the upload
handler alerts and returns with the page state — stored upload, preview
surface, generate-button enablement — exactly as before. -/
theorem C4_reject_non_image (st : PageState) (fileType readerResult : String)
    (h : strStartsWith fileType "image/" = false) :
    handleFile st fileType readerResult =
      (st, [Event.alert "Please select an image file."]) := by
  simp [handleFile, h]

/-- Witness for C4 with a text file against the initial state. -/
theorem C4_reject_non_image_witness :
    handleFile initialState "text/plain" "data:text/plain;base64,QUJD" =
      (initialState, [Event.alert "Please select an image file."]) :=
  C4_reject_non_image initialState "text/plain" "data:text/plain;base64,QUJD" (by decide)

/-- C5: for every service response with no content part carrying inline image
data, the attempt ends with the placeholder replaced by the
`Generation failed.` error tile and no pending success tile — never in the
succeeded state. -/
theorem C5_no_inline_fails (st : PageState) (uf : UploadedFile)
    (pose expression style cameraAngle : String) (parts : List Part) (pid : Nat)
    (huf : st.uploadedFile = some uf)
    (hnone : firstInlineData parts = none) :
    (generateClick st pose expression style cameraAngle
        (ServiceOutcome.ok parts) pid).1.resultsGrid =
      [Tile.errorTile "Generation failed."] ∧
    (generateClick st pose expression style cameraAngle
        (ServiceOutcome.ok parts) pid).2.2 = none := by
  have hscan : scanParts parts = none := by
    rw [scanParts_eq_firstInline, hnone]; rfl
  constructor <;> simp [generateClick, huf, hscan, replaceIfPresent, setControlsDisabled]

/-- Witness for C5 with a text-only response. -/
theorem C5_no_inline_fails_witness :
    (generateClick sampleUploadedState "a" "b" "c" "d"
        (ServiceOutcome.ok [{ inlineData := none, text := some "refused" }]) 0).1.resultsGrid =
      [Tile.errorTile "Generation failed."] ∧
    (generateClick sampleUploadedState "a" "b" "c" "d"
        (ServiceOutcome.ok [{ inlineData := none, text := some "refused" }]) 0).2.2 = none :=
  C5_no_inline_fails sampleUploadedState { base64 := "IMG", mimeType := "image/jpeg" }
    "a" "b" "c" "d" [{ inlineData := none, text := some "refused" }] 0 rfl rfl

/-- C6: for every error `e` thrown by the service call, the attempt ends with
the placeholder replaced by the one generic `API error.` tile — the same tile
for every `e`, so all service-side failures collapse to one reported kind and
the underlying error is never surfaced — while `e` itself is only logged via
`console.error`. -/
theorem C6_service_error_generic_tile (st : PageState) (uf : UploadedFile)
    (pose expression style cameraAngle : String) (e : String) (pid : Nat)
    (huf : st.uploadedFile = some uf) :
    (generateClick st pose expression style cameraAngle
        (ServiceOutcome.err e) pid).1.resultsGrid =
      [Tile.errorTile "API error."] ∧
    Event.consoleError
        ("API Error for prompt \"" ++
          combinedPrompt pose expression style cameraAngle ++ "\":") e ∈
      (generateClick st pose expression style cameraAngle
        (ServiceOutcome.err e) pid).2.1 ∧
    (generateClick st pose expression style cameraAngle
        (ServiceOutcome.err e) pid).2.2 = none := by
  refine ⟨?_, ?_, ?_⟩ <;> simp [generateClick, huf, replaceIfPresent, setControlsDisabled]

/-- Witness for C6 with a concrete thrown error. -/
theorem C6_service_error_generic_tile_witness :
    (generateClick sampleUploadedState "a" "b" "c" "d"
        (ServiceOutcome.err "quota exceeded") 0).1.resultsGrid =
      [Tile.errorTile "API error."] ∧
    Event.consoleError
        ("API Error for prompt \"" ++ combinedPrompt "a" "b" "c" "d" ++ "\":")
        "quota exceeded" ∈
      (generateClick sampleUploadedState "a" "b" "c" "d"
        (ServiceOutcome.err "quota exceeded") 0).2.1 ∧
    (generateClick sampleUploadedState "a" "b" "c" "d"
        (ServiceOutcome.err "quota exceeded") 0).2.2 = none :=
  C6_service_error_generic_tile sampleUploadedState
    { base64 := "IMG", mimeType := "image/jpeg" } "a" "b" "c" "d" "quota exceeded" 0 rfl

end PoseApp

namespace PoseApp

/-- C7: for every started generation attempt (an upload is present), whatever
the service outcome, the handler finishes with the loading indicator hidden
and every control re-enabled, the effect trace contains the hide and the
re-enable exactly once, and the deferred image-load callbacks never touch the
indicator or the controls again. -/
theorem C7_cleanup_once (st : PageState) (uf : UploadedFile)
    (pose expression style cameraAngle : String) (svc : ServiceOutcome) (pid : Nat)
    (p : PendingImage)
    (huf : st.uploadedFile = some uf) :
    (generateClick st pose expression style cameraAngle svc pid).1.loadingHidden = true ∧
    (generateClick st pose expression style cameraAngle svc pid).1.generateDisabled = false ∧
    (generateClick st pose expression style cameraAngle svc pid).1.selectsDisabled = false ∧
    (generateClick st pose expression style cameraAngle svc pid).2.1.countP
        Event.isHideLoading = 1 ∧
    (generateClick st pose expression style cameraAngle svc pid).2.1.countP
        Event.isEnableControls = 1 ∧
    (imgOnload (generateClick st pose expression style cameraAngle svc pid).1
        p).loadingHidden = true ∧
    (imgOnload (generateClick st pose expression style cameraAngle svc pid).1
        p).generateDisabled = false ∧
    (imgOnload (generateClick st pose expression style cameraAngle svc pid).1
        p).selectsDisabled = false ∧
    (imgOnerror (generateClick st pose expression style cameraAngle svc pid).1
        p).loadingHidden = true ∧
    (imgOnerror (generateClick st pose expression style cameraAngle svc pid).1
        p).generateDisabled = false ∧
    (imgOnerror (generateClick st pose expression style cameraAngle svc pid).1
        p).selectsDisabled = false := by
  rcases svc with parts | e
  · rcases hscan : scanParts parts with _ | src <;>
      simp [generateClick, huf, hscan, setControlsDisabled, imgOnload, imgOnerror,
        List.countP_cons, List.countP_nil, Event.isHideLoading, Event.isEnableControls]
  · simp [generateClick, huf, setControlsDisabled, imgOnload, imgOnerror,
      List.countP_cons, List.countP_nil, Event.isHideLoading, Event.isEnableControls]

/-- Witness for C7 on the success path with a concrete response. -/
theorem C7_cleanup_once_witness :
    (generateClick sampleUploadedState "a" "b" "c" "d"
        (ServiceOutcome.ok [samplePngPart]) 0).1.loadingHidden = true ∧
    (generateClick sampleUploadedState "a" "b" "c" "d"
        (ServiceOutcome.ok [samplePngPart]) 0).1.generateDisabled = false ∧
    (generateClick sampleUploadedState "a" "b" "c" "d"
        (ServiceOutcome.ok [samplePngPart]) 0).1.selectsDisabled = false ∧
    (generateClick sampleUploadedState "a" "b" "c" "d"
        (ServiceOutcome.ok [samplePngPart]) 0).2.1.countP Event.isHideLoading = 1 ∧
    (generateClick sampleUploadedState "a" "b" "c" "d"
        (ServiceOutcome.ok [samplePngPart]) 0).2.1.countP Event.isEnableControls = 1 ∧
    (imgOnload (generateClick sampleUploadedState "a" "b" "c" "d"
        (ServiceOutcome.ok [samplePngPart]) 0).1
        { pid := 0, container := Tile.errorTile "t" }).loadingHidden = true ∧
    (imgOnload (generateClick sampleUploadedState "a" "b" "c" "d"
        (ServiceOutcome.ok [samplePngPart]) 0).1
        { pid := 0, container := Tile.errorTile "t" }).generateDisabled = false ∧
    (imgOnload (generateClick sampleUploadedState "a" "b" "c" "d"
        (ServiceOutcome.ok [samplePngPart]) 0).1
        { pid := 0, container := Tile.errorTile "t" }).selectsDisabled = false ∧
    (imgOnerror (generateClick sampleUploadedState "a" "b" "c" "d"
        (ServiceOutcome.ok [samplePngPart]) 0).1
        { pid := 0, container := Tile.errorTile "t" }).loadingHidden = true ∧
    (imgOnerror (generateClick sampleUploadedState "a" "b" "c" "d"
        (ServiceOutcome.ok [samplePngPart]) 0).1
        { pid := 0, container := Tile.errorTile "t" }).generateDisabled = false ∧
    (imgOnerror (generateClick sampleUploadedState "a" "b" "c" "d"
        (ServiceOutcome.ok [samplePngPart]) 0).1
        { pid := 0, container := Tile.errorTile "t" }).selectsDisabled = false :=
  C7_cleanup_once sampleUploadedState { base64 := "IMG", mimeType := "image/jpeg" }
    "a" "b" "c" "d" (ServiceOutcome.ok [samplePngPart]) 0
    { pid := 0, container := Tile.errorTile "t" } rfl

/-- C8: on every successful service response (some part carries inline data),
the handler leaves the placeholder in the grid — the success tile is only
pending behind the image's client-side load.  Firing `onload` swaps the
success tile in; firing `onerror` instead swaps in the error tile reading
exactly `Failed to load image.`. -/
theorem C8_load_gated (st : PageState) (uf : UploadedFile)
    (pose expression style cameraAngle : String) (parts : List Part) (pid : Nat)
    (d : InlineData)
    (huf : st.uploadedFile = some uf)
    (hfirst : firstInlineData parts = some d) :
    (generateClick st pose expression style cameraAngle
        (ServiceOutcome.ok parts) pid).1.resultsGrid = [Tile.placeholder pid] ∧
    (generateClick st pose expression style cameraAngle
        (ServiceOutcome.ok parts) pid).2.2 =
      some { pid := pid
             container := Tile.imageResult (dataUri d)
               (downloadFilename (combinedPrompt pose expression style cameraAngle))
               ("Generated image: " ++ combinedPrompt pose expression style cameraAngle) } ∧
    (imgOnload (generateClick st pose expression style cameraAngle
          (ServiceOutcome.ok parts) pid).1
        { pid := pid
          container := Tile.imageResult (dataUri d)
            (downloadFilename (combinedPrompt pose expression style cameraAngle))
            ("Generated image: " ++ combinedPrompt pose expression style cameraAngle) }).resultsGrid =
      [Tile.imageResult (dataUri d)
        (downloadFilename (combinedPrompt pose expression style cameraAngle))
        ("Generated image: " ++ combinedPrompt pose expression style cameraAngle)] ∧
    (imgOnerror (generateClick st pose expression style cameraAngle
          (ServiceOutcome.ok parts) pid).1
        { pid := pid
          container := Tile.imageResult (dataUri d)
            (downloadFilename (combinedPrompt pose expression style cameraAngle))
            ("Generated image: " ++ combinedPrompt pose expression style cameraAngle) }).resultsGrid =
      [Tile.errorTile "Failed to load image."] := by
  have hscan : scanParts parts = some (dataUri d) := by
    rw [scanParts_eq_firstInline, hfirst]; rfl
  refine ⟨?_, ?_, ?_, ?_⟩ <;>
    simp [generateClick, huf, hscan, setControlsDisabled, imgOnload, imgOnerror,
      replaceIfPresent]

/-- Witness for C8 with a concrete response part. -/
theorem C8_load_gated_witness :
    (generateClick sampleUploadedState "a" "b" "c" "d"
        (ServiceOutcome.ok [samplePngPart]) 0).1.resultsGrid = [Tile.placeholder 0] ∧
    (generateClick sampleUploadedState "a" "b" "c" "d"
        (ServiceOutcome.ok [samplePngPart]) 0).2.2 =
      some { pid := 0
             container := Tile.imageResult (dataUri { data := "AAAA", mimeType := "image/png" })
               (downloadFilename (combinedPrompt "a" "b" "c" "d"))
               ("Generated image: " ++ combinedPrompt "a" "b" "c" "d") } ∧
    (imgOnload (generateClick sampleUploadedState "a" "b" "c" "d"
          (ServiceOutcome.ok [samplePngPart]) 0).1
        { pid := 0
          container := Tile.imageResult (dataUri { data := "AAAA", mimeType := "image/png" })
            (downloadFilename (combinedPrompt "a" "b" "c" "d"))
            ("Generated image: " ++ combinedPrompt "a" "b" "c" "d") }).resultsGrid =
      [Tile.imageResult (dataUri { data := "AAAA", mimeType := "image/png" })
        (downloadFilename (combinedPrompt "a" "b" "c" "d"))
        ("Generated image: " ++ combinedPrompt "a" "b" "c" "d")] ∧
    (imgOnerror (generateClick sampleUploadedState "a" "b" "c" "d"
          (ServiceOutcome.ok [samplePngPart]) 0).1
        { pid := 0
          container := Tile.imageResult (dataUri { data := "AAAA", mimeType := "image/png" })
            (downloadFilename (combinedPrompt "a" "b" "c" "d"))
            ("Generated image: " ++ combinedPrompt "a" "b" "c" "d") }).resultsGrid =
      [Tile.errorTile "Failed to load image."] :=
  C8_load_gated sampleUploadedState { base64 := "IMG", mimeType := "image/jpeg" }
    "a" "b" "c" "d" [samplePngPart] 0 { data := "AAAA", mimeType := "image/png" } rfl rfl

end PoseApp

namespace PoseApp

/-- The click handler never writes the stored upload. -/
theorem generateClick_uploadedFile (st : PageState)
    (pose expression style cameraAngle : String) (svc : ServiceOutcome) (pid : Nat) :
    (generateClick st pose expression style cameraAngle svc pid).1.uploadedFile =
      st.uploadedFile := by
  rcases hst : st.uploadedFile with _ | uf
  · simp [generateClick, hst]
  · rcases svc with parts | e
    · rcases hscan : scanParts parts with _ | src <;>
        simp [generateClick, hst, hscan, setControlsDisabled]
    · simp [generateClick, hst, setControlsDisabled]

/-- The invariant C9 claims of the stored upload: whenever present, a
non-empty base64 payload and a mimeType beginning with `image/`. -/
def uploadedInvariantClaimed (uf : Option UploadedFile) : Prop :=
  ∀ u, uf = some u → u.base64 ≠ "" ∧ strStartsWith u.mimeType "image/" = true

/-- The amended invariant: whenever present, the mimeType begins with
`image/` (the payload can be empty, e.g. for a zero-byte image file). -/
def uploadedInvariantAmended (uf : Option UploadedFile) : Prop :=
  ∀ u, uf = some u → strStartsWith u.mimeType "image/" = true

/-- C9 (counterexample): uploading a zero-byte image file — MIME type
`image/png`, whose FileReader data URL is `data:image/png;base64,` — stores
an upload record with an empty base64 payload: the claimed non-emptiness
fails immediately after this operation, because `handleFile` never inspects
the decoded payload. -/
theorem C9_counterexample :
    ¬ uploadedInvariantClaimed
        (handleFile initialState "image/png" "data:image/png;base64,").1.uploadedFile := by
  intro h
  exact (h { base64 := "", mimeType := "image/png" } (by decide)).1 rfl

/-- C9 (amended): the stored upload is always either absent or carries a
mimeType beginning with `image/`; a successful upload replaces the record
wholesale with one freshly built from this upload's fields, and no other
operation (the click handler, the deferred load callbacks) ever writes it. -/
theorem C9_amended_invariant (st : PageState) (fileType readerResult : String)
    (pose expression style cameraAngle : String) (svc : ServiceOutcome) (pid : Nat)
    (p q : PendingImage)
    (h : uploadedInvariantAmended st.uploadedFile) :
    uploadedInvariantAmended (handleFile st fileType readerResult).1.uploadedFile ∧
    ((handleFile st fileType readerResult).1.uploadedFile = st.uploadedFile ∨
      (handleFile st fileType readerResult).1.uploadedFile =
        some { base64 := (splitCommaSecond readerResult).getD ""
               mimeType := fileType }) ∧
    uploadedInvariantAmended
      (generateClick st pose expression style cameraAngle svc pid).1.uploadedFile ∧
    uploadedInvariantAmended (imgOnload st p).uploadedFile ∧
    uploadedInvariantAmended (imgOnerror st q).uploadedFile := by
  by_cases hft : strStartsWith fileType "image/" = true
  · have hfile : (handleFile st fileType readerResult).1.uploadedFile =
        some { base64 := (splitCommaSecond readerResult).getD ""
               mimeType := fileType } := by
      simp [handleFile, hft]
    refine ⟨?_, Or.inr hfile, ?_, ?_, ?_⟩
    · intro u hu
      rw [hfile] at hu
      injection hu with h2
      rw [← h2]
      exact hft
    · rw [generateClick_uploadedFile]; exact h
    · simpa [imgOnload] using h
    · simpa [imgOnerror] using h
  · have hft' : strStartsWith fileType "image/" = false := by
      simpa using hft
    have hfile : (handleFile st fileType readerResult).1.uploadedFile =
        st.uploadedFile := by
      simp [handleFile, hft']
    refine ⟨?_, Or.inl hfile, ?_, ?_, ?_⟩
    · rw [hfile]; exact h
    · rw [generateClick_uploadedFile]; exact h
    · simpa [imgOnload] using h
    · simpa [imgOnerror] using h

/-- Witness for the amended C9 invariant at concrete inputs. -/
theorem C9_amended_invariant_witness :
    uploadedInvariantAmended
      (handleFile initialState "image/png" "data:image/png;base64,AAAA").1.uploadedFile ∧
    ((handleFile initialState "image/png" "data:image/png;base64,AAAA").1.uploadedFile =
        initialState.uploadedFile ∨
      (handleFile initialState "image/png" "data:image/png;base64,AAAA").1.uploadedFile =
        some { base64 := (splitCommaSecond "data:image/png;base64,AAAA").getD ""
               mimeType := "image/png" }) ∧
    uploadedInvariantAmended
      (generateClick initialState "a" "b" "c" "d" (ServiceOutcome.ok []) 0).1.uploadedFile ∧
    uploadedInvariantAmended
      (imgOnload initialState { pid := 0, container := Tile.errorTile "x" }).uploadedFile ∧
    uploadedInvariantAmended
      (imgOnerror initialState { pid := 1, container := Tile.errorTile "y" }).uploadedFile :=
  C9_amended_invariant initialState "image/png" "data:image/png;base64,AAAA"
    "a" "b" "c" "d" (ServiceOutcome.ok []) 0
    { pid := 0, container := Tile.errorTile "x" }
    { pid := 1, container := Tile.errorTile "y" }
    (by intro u hu; simp [initialState] at hu)

/-- C10: the replacement routine shared by all four outcome renderings touches
the results area only at the attempt's own placeholder — every other position
keeps its tile and the grid length is unchanged — and does nothing at all when
that placeholder has already left the grid; in particular a stale deferred
`onload`/`onerror` leaves the whole page state unchanged. -/
theorem C10_stale_outcome_frame (grid : List Tile) (pid : Nat) (newTile : Tile)
    (st : PageState) (p : PendingImage) :
    (Tile.placeholder pid ∉ grid → replaceIfPresent grid pid newTile = grid) ∧
    (∀ i : Nat, ∀ t : Tile, grid[i]? = some t → t ≠ Tile.placeholder pid →
      (replaceIfPresent grid pid newTile)[i]? = some t) ∧
    (replaceIfPresent grid pid newTile).length = grid.length ∧
    (Tile.placeholder p.pid ∉ st.resultsGrid →
      imgOnload st p = st ∧ imgOnerror st p = st) := by
  refine ⟨?_, ?_, ?_, ?_⟩
  · intro hnotin
    simp [replaceIfPresent, hnotin]
  · intro i t hget hne
    by_cases hin : Tile.placeholder pid ∈ grid
    · simp [replaceIfPresent, hin, List.getElem?_map, hget, hne]
    · simp [replaceIfPresent, hin, hget]
  · by_cases hin : Tile.placeholder pid ∈ grid <;> simp [replaceIfPresent, hin]
  · intro hnotin
    constructor <;> simp [imgOnload, imgOnerror, replaceIfPresent, hnotin]

/-- Witness for C10: a grid holding another attempt's tile is untouched, both
positionally and by the stale deferred callbacks. -/
theorem C10_stale_outcome_frame_witness :
    replaceIfPresent [Tile.errorTile "x"] 0 (Tile.errorTile "y") = [Tile.errorTile "x"] ∧
    (replaceIfPresent [Tile.errorTile "x"] 0 (Tile.errorTile "y"))[0]? =
      some (Tile.errorTile "x") ∧
    imgOnload initialState { pid := 0, container := Tile.errorTile "y" } = initialState ∧
    imgOnerror initialState { pid := 0, container := Tile.errorTile "y" } = initialState := by
  have h := C10_stale_outcome_frame [Tile.errorTile "x"] 0 (Tile.errorTile "y")
    initialState { pid := 0, container := Tile.errorTile "y" }
  have hmem : Tile.placeholder 0 ∉ [Tile.errorTile "x"] := by decide
  have hmem2 : Tile.placeholder 0 ∉ initialState.resultsGrid := by decide
  exact ⟨h.1 hmem, h.2.1 0 (Tile.errorTile "x") (by decide) (by decide),
         (h.2.2.2 hmem2).1, (h.2.2.2 hmem2).2⟩

end PoseApp
